import Mathlib

/-
Verification development for the ai-photo-analyzer-rtx multi-stage pipeline.

The definitions below are a shallow embedding of the Python sources:
  * namespace PipelineCore   — src/pipeline_core.py
  * namespace WebApp         — src/web/app.py (write_exif_data)
  * namespace UnifiedAnalyzer — src/experimental/unified_analyzer.py

Python floats are modelled as rationals (ℚ), dictionaries with fixed keys as
structures with Option fields for possibly-absent keys, and the filesystem /
network / subprocess environment as explicit function-valued inputs.
-/

set_option maxRecDepth 8000

/-- Python `int(x)` on a numeric value: truncation toward zero. -/
def pyInt (q : ℚ) : ℤ := if 0 ≤ q then ⌊q⌋ else ⌈q⌉

/-- Index of the last occurrence of a dot in a character list (Python `str.rfind`). -/
def rfindDotIdx : List Char → Option ℕ
  | [] => none
  | c :: cs =>
    match rfindDotIdx cs with
    | some i => some (i + 1)
    | none => if c = '.' then some 0 else none

/-- Length of the `pathlib` suffix of a file name: the part from the last dot on,
provided that dot is neither the first nor the last character; 0 when the name has
no suffix. -/
def pathSuffixLen (name : List Char) : ℕ :=
  match rfindDotIdx name with
  | some i => if 0 < i ∧ i < name.length - 1 then name.length - i else 0
  | none => 0

/-- The `pathlib` suffix of a file name as a string (empty when there is none). -/
def path_suffix (name : String) : String :=
  let cs := name.data
  ⟨cs.drop (cs.length - pathSuffixLen cs)⟩

/-- Python `pathlib.Path.with_suffix`: replace the suffix of the final component
by `suf`, or append `suf` when the name has no suffix. -/
def with_suffix (name : String) (suf : String) : String :=
  let cs := name.data
  let k := pathSuffixLen cs
  if k = 0 then ⟨cs ++ suf.data⟩ else ⟨cs.take (cs.length - k) ++ suf.data⟩

/-- The value found under the `"score"` key of an analysis dictionary:
absent, present but not a number, or a number. -/
inductive ScoreField where
  | missing
  | nonNumeric
  | num (q : ℚ)
deriving DecidableEq

/-- An analysis-result dictionary as produced by the AI backends
(`category`, `subcategory`, `tags`, `score`, `critique` keys; `Option`/`ScoreField`
record whether a key is present). -/
structure AnalysisData where
  category : Option String
  subcategory : Option String
  tags : Option (List String)
  score : ScoreField
  critique : Option String
deriving DecidableEq

namespace PipelineCore

/-- Extension allow-list from `curate_images_by_quality`. -/
def supported_extensions : List String := [".jpg", ".jpeg", ".png", ".tif", ".tiff"]

/-- The PNG guard of `score_image`: `image_path.lower().endswith('.png')`. -/
def isPngPath (path : String) : Bool :=
  (path.data.map Char.toLower).reverse.take 4 == ".png".data.reverse

/-- Arithmetic of `ImageCurationEngine._fallback_quality_score` on a readable image:
file size in bytes, pixel width and height. -/
def fallback_quality_score (fileSize width height : ℕ) : ℚ :=
  let total_pixels : ℚ := (width : ℚ) * (height : ℚ)
  let bytes_per_pixel : ℚ := if total_pixels > 0 then (fileSize : ℚ) / total_pixels else 0
  let aspect : ℚ := if (height : ℚ) > 0 then (width : ℚ) / (height : ℚ) else 1
  let aspect_penalty : ℚ := min aspect (1 / aspect)
  let resolution_score : ℚ := min 100 (total_pixels / 10000)
  let compression_score : ℚ := min 100 (bytes_per_pixel * 100)
  let aspect_score : ℚ := aspect_penalty * 100
  resolution_score * (2 / 5) + compression_score * (2 / 5) + aspect_score * (1 / 5)

/-- Environment of the curation engine: whether an IQA metric is loaded, its name,
per-path metric outcome (`none` models a raised exception), its `lower_better`
attribute when present, and per-path readable image properties
`(file size, width, height)` (`none` models an unreadable file). -/
structure ScoreEnv where
  iqaLoaded : Bool
  iqa_model_name : String
  iqaScore : String → Option ℚ
  iqaLowerBetter : Option Bool
  imageProps : String → Option (ℕ × ℕ × ℕ)

/-- `_fallback_quality_score` including its exception path: an unreadable image
gets the default middle score 50.0. -/
def fallback_quality (env : ScoreEnv) (path : String) : ℚ :=
  match env.imageProps path with
  | some (sz, w, h) => fallback_quality_score sz w h
  | none => 50

/-- `ImageCurationEngine.score_image`: PNG paths are skipped (`None`) before any
scoring is attempted; otherwise the IQA metric is used when loaded (falling back
to the heuristic when the metric call raises), else the heuristic directly. -/
def score_image (env : ScoreEnv) (path : String) : Option ℚ :=
  if isPngPath path then none
  else if env.iqaLoaded then
    match env.iqaScore path with
    | some v => some v
    | none => some (fallback_quality env path)
  else some (fallback_quality env path)

/-- Status messages put on the status queue / callback, one constructor per
emission site of `curate_images_by_quality`, `process_directory` and
`write_metadata_batch` (message text is summarised by the constructor's fields). -/
inductive StatusMsg where
  | iqaStart
  | noFilesFound
  | foundImages (n : ℕ)
  | scoringImage (i n : ℕ) (path : String)
  | noImagesScored
  | selectedTop (k : ℕ) (pct : ℚ)
  | scoreRange (lo hi : ℚ)
  | pipelineStart
  | targetDir (d : String)
  | noImagesSelected
  | analysisStart (n : ℕ)
  | analyzingImage (i n : ℕ) (path : String)
  | analysisResult (category subcategory : String) (score : ℚ)
  | writingStart (n : ℕ)
  | writingMeta (i n : ℕ) (path : String)
  | writingComplete (succ n : ℕ)
  | pipelineComplete
  | processedSummary (succ n : ℕ)
  | usedIqa (m : String)
  | usedAi (m : String)
deriving DecidableEq

/-- Messages emitted by the AI-analysis stage of `process_directory`. -/
def StatusMsg.isAnalysisMsg : StatusMsg → Bool
  | .analysisStart _ => true
  | .analyzingImage _ _ _ => true
  | .analysisResult _ _ _ => true
  | _ => false

/-- Messages emitted by the metadata-persistence stage of `process_directory`. -/
def StatusMsg.isPersistenceMsg : StatusMsg → Bool
  | .writingStart _ => true
  | .writingMeta _ _ _ => true
  | .writingComplete _ _ => true
  | _ => false

/-- Stable insertion into a sorted list, used to model Python's stable `list.sort`. -/
def insertSorted (le : α → α → Bool) (a : α) : List α → List α
  | [] => [a]
  | b :: bs => if le a b then a :: b :: bs else b :: insertSorted le a bs

/-- Stable sort by a boolean comparison, used to model Python's `list.sort`. -/
def sortBy (le : α → α → Bool) : List α → List α
  | [] => []
  | a :: as => insertSorted le a (sortBy le as)

/-- Python `scores.sort(key=lambda x: x[1], reverse=reverse_sort)`. -/
def sortScores (reverse : Bool) (scores : List (String × ℚ)) : List (String × ℚ) :=
  if reverse then sortBy (fun a b => decide (b.2 ≤ a.2)) scores
  else sortBy (fun a b => decide (a.2 ≤ b.2)) scores

/-- The reverse flag of the curation sort: descending unless a loaded metric
reports `lower_better = true`. -/
def reverse_sort (env : ScoreEnv) : Bool :=
  if env.iqaLoaded then
    match env.iqaLowerBetter with
    | some lb => !lb
    | none => true
  else true

/-- Python `max(1, int(len(scores) * top_percent))`. -/
def num_to_select (n : ℕ) (top_percent : ℚ) : ℕ :=
  max 1 (pyInt ((n : ℚ) * top_percent)).toNat

/-- The images of the enumerated list that score successfully, with their scores. -/
def scored_images (env : ScoreEnv) (image_files : List String) : List (String × ℚ) :=
  image_files.filterMap (fun p => (score_image env p).map (fun s => (p, s)))

/-- `ImageCurationEngine.curate_images_by_quality`, returning the curated list
together with the status-queue trace. The filesystem glob is modelled by the
`image_files` input list. -/
def curate_images_by_quality (env : ScoreEnv) (image_files : List String)
    (top_percent : ℚ) : List (String × ℚ) × List StatusMsg :=
  if image_files.isEmpty then
    ([], [.iqaStart, .noFilesFound])
  else
    let total := image_files.length
    let scoringMsgs := image_files.enum.map
      (fun e => StatusMsg.scoringImage (e.1 + 1) total e.2)
    let scores := scored_images env image_files
    if scores.isEmpty then
      ([], [.iqaStart, .foundImages total] ++ scoringMsgs ++ [.noImagesScored])
    else
      let sorted := sortScores (reverse_sort env) scores
      let top := sorted.take (num_to_select scores.length top_percent)
      (top, [.iqaStart, .foundImages total] ++ scoringMsgs ++
        [.selectedTop top.length top_percent,
         .scoreRange (top.getLastD ("", 0)).2 (top.headD ("", 0)).2])

/-- The curated list returned by `curate_images_by_quality` (first component). -/
def curated (env : ScoreEnv) (image_files : List String) (top_percent : ℚ) :
    List (String × ℚ) :=
  (curate_images_by_quality env image_files top_percent).1

/-- Environment of `ContentGenerationEngine`: the initialised models and, per image
path, the parsed-JSON outcome of each backend call (`none` models a failed request,
a raised exception, or a JSON decode error). -/
structure ContentEnv where
  llava_13b_model : Option String
  gemini_model : Bool
  llavaRaw : String → Option AnalysisData
  geminiRaw : String → Option AnalysisData
  enable_gallery_critique : Bool

/-- The required-keys validation of `analyze_image_with_gemini`:
`category, subcategory, tags, score` must be present, plus `critique` when
gallery critique is enabled. -/
def gemini_required_ok (cfgCritique : Bool) (d : AnalysisData) : Bool :=
  d.category.isSome && d.subcategory.isSome && d.tags.isSome &&
    !(d.score == ScoreField.missing) && (!cfgCritique || d.critique.isSome)

/-- `ContentGenerationEngine.analyze_image_with_gemini`: requires the model,
a parseable response and the required keys; the parsed data is returned
unchanged (in particular any critique text is retained). -/
def analyze_image_with_gemini (env : ContentEnv) (path : String) :
    Option AnalysisData :=
  if env.gemini_model then
    match env.geminiRaw path with
    | some d => if gemini_required_ok env.enable_gallery_critique d then some d else none
    | none => none
  else none

/-- `ContentGenerationEngine.analyze_image_with_llava_13b`: requires the model,
a parseable response, and only the `category` key. -/
def analyze_image_with_llava_13b (env : ContentEnv) (path : String) :
    Option AnalysisData :=
  match env.llava_13b_model with
  | some _ =>
    match env.llavaRaw path with
    | some d => if d.category.isSome then some d else none
    | none => none
  | none => none

/-- The fixed placeholder classification returned by `analyze_image` when every
backend fails. -/
def placeholder_classification : AnalysisData :=
  { category := some "Thing"
    subcategory := some "Other"
    tags := some ["AI", "Analyzed"]
    score := .num 6
    critique := some "Analysis failed - using placeholder data" }

/-- `ContentGenerationEngine.analyze_image`: LLaVA 13B first, Gemini second,
placeholder last. Every code path returns a dictionary, never `None`. -/
def analyze_image (env : ContentEnv) (path : String) : AnalysisData :=
  match analyze_image_with_llava_13b env path with
  | some r => r
  | none =>
    match analyze_image_with_gemini env path with
    | some r => r
    | none => placeholder_classification

/-- Structural validity of an analysis result: the four required fields are
present (the schema shared by every backend adapter). -/
def structurally_valid (d : AnalysisData) : Bool :=
  d.category.isSome && d.subcategory.isSome && d.tags.isSome &&
    !(d.score == ScoreField.missing)

/-- Rating derivation shared verbatim by `write_xmp_sidecar` and
`write_embedded_metadata`: `analysis_data.get('score', 3)`, non-numbers replaced
by 3, then `max(1, min(5, int(rating)))`. -/
def derive_rating : ScoreField → ℤ
  | .missing => 3
  | .nonNumeric => 3
  | .num q => max 1 (min 5 (pyInt q))

/-- Tag-list adjustment shared verbatim by `write_xmp_sidecar` and
`write_embedded_metadata`: append `"GALLERY"` when the derived rating is 5 and
the tag list does not already contain it. -/
def gallery_tags (d : AnalysisData) : List String :=
  let tags := d.tags.getD []
  if derive_rating d.score = 5 ∧ "GALLERY" ∉ tags then tags ++ ["GALLERY"] else tags

/-- The record written by `MetadataPersistenceLayer.write_xmp_sidecar` through
exiftool, field per exiftool tag. -/
structure XmpSidecarWrite where
  path : String
  subject : List String
  keywords : List String
  descriptionText : String
  rating : ℤ
  title : String
deriving DecidableEq

/-- `MetadataPersistenceLayer.write_xmp_sidecar`: the sidecar path is
`Path(image_path).with_suffix('.xmp')` and the metadata is computed from the
analysis data alone (no prior sidecar content is read). -/
def write_xmp_sidecar (image_path : String) (d : AnalysisData) : XmpSidecarWrite :=
  let tags := gallery_tags d
  let rating := derive_rating d.score
  { path := with_suffix image_path ".xmp"
    subject := tags
    keywords := tags
    descriptionText := d.critique.getD ""
    rating := rating
    title := "Rating: " ++ toString rating ++ "/5" }

/-- The record written by `MetadataPersistenceLayer.write_embedded_metadata`
through exiftool into the image file itself, field per exiftool tag. -/
structure EmbeddedWrite where
  keywords : List String
  subject : List String
  userComment : String
  rating : ℤ
  imageDescText : String
deriving DecidableEq

/-- `MetadataPersistenceLayer.write_embedded_metadata`: the metadata is computed
from the analysis data alone; no field of the target file is read first. -/
def write_embedded_metadata (image_path : String) (d : AnalysisData) :
    EmbeddedWrite :=
  let tags := gallery_tags d
  let rating := derive_rating d.score
  { keywords := tags
    subject := tags
    userComment := d.critique.getD ""
    rating := rating
    imageDescText :=
      "Category: " ++ d.category.getD "N/A" ++ ", Rating: " ++ toString rating ++ "/5" }

/-- The embedded EXIF rating of the target image after a
`write_embedded_metadata` call: exiftool's `set_tags` replaces `EXIF:Rating`
with the written value, whatever rating the target carried before. -/
def embedded_rating_after (existing : Option ℤ) (image_path : String)
    (d : AnalysisData) : ℤ :=
  (write_embedded_metadata image_path d).rating

/-- Run-scoped configuration read by `process_directory`
(defaults `quality_threshold=0.10`, `use_exif=False`, `model_type='unknown'`
are applied by the dictionary lookups). -/
structure PipelineCfg where
  quality_threshold : ℚ
  use_exif : Bool
  model_type : String

/-- Environment of the whole pipeline: curation, content analysis, and per-path
exiftool write success. -/
structure PipelineEnv where
  score : ScoreEnv
  content : ContentEnv
  write_ok : String → Bool

/-- The result dictionary of `process_directory` (wall-clock fields omitted). -/
inductive PipelineResult where
  | failure (error : String)
  | success (total_images_found images_analyzed metadata_written : ℕ)
deriving DecidableEq

/-- The displayed score of an analysis result, `analysis_data.get('score', 0)`. -/
def score_display : ScoreField → ℚ
  | .num q => q
  | _ => 0

/-- The AI-analysis loop of `process_directory` over the curated list, with its
status-queue trace. `analyze_image` always returns a (truthy) dictionary, so
every curated image yields a result entry. -/
def analysis_stage (env : PipelineEnv) (curatedImgs : List (String × ℚ)) :
    List (String × AnalysisData) × List StatusMsg :=
  let n := curatedImgs.length
  let results := curatedImgs.map (fun pq => (pq.1, analyze_image env.content pq.1))
  let perMsgs := (curatedImgs.enum.map (fun e =>
    let d := analyze_image env.content e.2.1
    [StatusMsg.analyzingImage (e.1 + 1) n e.2.1,
     StatusMsg.analysisResult (d.category.getD "Unknown") (d.subcategory.getD "Unknown")
       (score_display d.score)])).flatten
  (results, [.analysisStart n] ++ perMsgs)

/-- `MetadataPersistenceLayer.write_metadata_batch` (and its callback twin):
count of successful writes plus the status trace. Which writer runs is selected
by `use_exif`; the success of each independent exiftool invocation is modelled
by `write_ok`. -/
def write_metadata_batch (env : PipelineEnv) (use_exif : Bool)
    (results : List (String × AnalysisData)) : ℕ × List StatusMsg :=
  let n := results.length
  let perMsgs := results.enum.map (fun e => StatusMsg.writingMeta (e.1 + 1) n e.2.1)
  let succ := (results.filter (fun r => env.write_ok r.1)).length
  (succ, [.writingStart n] ++ perMsgs ++ [.writingComplete succ n])

/-- `MultiStageProcessingPipeline.process_directory`: curation, then analysis,
then metadata writing, with the status-queue trace; the early return on an empty
curated list carries the structured failure record. -/
def process_directory (env : PipelineEnv) (cfg : PipelineCfg)
    (directory_path : String) (image_files : List String) :
    PipelineResult × List StatusMsg :=
  let cur := curate_images_by_quality env.score image_files cfg.quality_threshold
  let headMsgs : List StatusMsg := [.pipelineStart, .targetDir directory_path]
  if cur.1.isEmpty then
    (.failure "No images passed quality assessment",
     headMsgs ++ cur.2 ++ [.noImagesSelected])
  else
    let astage := analysis_stage env cur.1
    let wstage := write_metadata_batch env cfg.use_exif astage.1
    (.success cur.1.length astage.1.length wstage.1,
     headMsgs ++ cur.2 ++ astage.2 ++ wstage.2 ++
       [.pipelineComplete, .processedSummary wstage.1 astage.1.length,
        .usedIqa env.score.iqa_model_name, .usedAi cfg.model_type])

end PipelineCore

namespace WebApp

/-- Star derivation of `AnalysisServer.write_exif_data` in src/web/app.py:
`max(1, min(5, math.ceil(score / 2)))` when `score <= 10`, else
`max(1, min(5, score))`, which for a score above 10 always evaluates to 5.
The branch condition inspects the score's magnitude, not a configuration flag. -/
def star_rating (score : ℚ) : ℤ :=
  if score ≤ 10 then max 1 (min 5 ⌈score / 2⌉) else 5

/-- The final rating written by `write_exif_data`: an existing embedded rating of
4 or 5 is preserved when the metadata handling mode is `'append'` (the default),
otherwise the newly derived star value is used. -/
def final_rating (existing_rating : Option ℤ) (handling_mode : String)
    (score : ℚ) : ℤ :=
  match existing_rating with
  | some r => if handling_mode = "append" ∧ (r = 4 ∨ r = 5) then r else star_rating score
  | none => star_rating score

end WebApp

namespace UnifiedAnalyzer

/-- Configuration fields of `UnifiedConfig` relevant to critique handling
(defaults `enable_gallery_critique = False`, `critique_threshold = 5`). -/
structure UConfig where
  enable_gallery_critique : Bool
  critique_threshold : Option ℤ
deriving DecidableEq

/-- Python `data.get('score', 0)` as used by `parse_response`. -/
def score_val : ScoreField → ℚ
  | .num q => q
  | _ => 0

/-- `GeminiAnalyzer.parse_response` of src/experimental/unified_analyzer.py on the
parsed JSON (`none` models a JSON decode error): validates the required keys and,
when gallery critique is disabled yet `has_critique` was passed as true, strips
the critique of results scoring above the threshold. -/
def parse_response (cfg : UConfig) (has_critique : Bool)
    (data : Option AnalysisData) : Option AnalysisData :=
  match data with
  | none => none
  | some d =>
    let required_ok := d.category.isSome && d.subcategory.isSome && d.tags.isSome &&
      !(d.score == ScoreField.missing) && (!has_critique || d.critique.isSome)
    if required_ok then
      if !cfg.enable_gallery_critique && has_critique then
        let score := score_val d.score
        let threshold := cfg.critique_threshold.getD 5
        if score > (threshold : ℚ) then some { d with critique := none } else some d
      else some d
    else none

/-- The wiring of `analyze_image` / `analyze_with_llava` / `analyze_with_gemini`:
`enable_critique = self.config.enable_gallery_critique` is the value passed to
`parse_response` as `has_critique` at both call sites. -/
def analyze_parse (cfg : UConfig) (raw : Option AnalysisData) : Option AnalysisData :=
  parse_response cfg cfg.enable_gallery_critique raw

/-- Star derivation of `MetadataWriter.write_exif_data` and `write_xmp_sidecar`:
`math.ceil(score / 2) if score >= 1 else 1` (no upper clamp). -/
def star_rating (score : ℚ) : ℤ :=
  if 1 ≤ score then ⌈score / 2⌉ else 1

/-- The final rating written by `MetadataWriter.write_exif_data`: an existing
embedded rating of 4 or 5 is preserved unconditionally. -/
def final_rating (existing_rating : Option ℤ) (score : ℚ) : ℤ :=
  match existing_rating with
  | some r => if r = 4 ∨ r = 5 then r else star_rating score
  | none => star_rating score

/-- Sidecar path of `MetadataWriter.write_xmp_sidecar`:
`image_path.with_suffix(image_path.suffix + '.xmp')`. -/
def xmp_sidecar_path (image_path : String) : String :=
  with_suffix image_path (path_suffix image_path ++ ".xmp")

end UnifiedAnalyzer

/-- Sidecar path of `MetadataPersistenceLayer.write_xmp_sidecar` in
src/pipeline_core.py: `Path(image_path).with_suffix('.xmp')`. -/
def pipeline_xmp_path (image_path : String) : String :=
  with_suffix image_path ".xmp"

/-- Modelled from the spec's words, for comparison with the implementations:
star derivation for a 1-10 score domain, `clamp(ceil(score/2), 1, 5)`. -/
def spec_star_1to10 (score : ℚ) : ℤ := max 1 (min 5 ⌈score / 2⌉)

/-- Modelled from the spec's words, for comparison with the implementations:
star derivation for a 1-5 score domain, `clamp(score, 1, 5)`. -/
def spec_star_1to5 (score : ℤ) : ℤ := max 1 (min 5 score)

/-- Modelled from the spec's words: the resolution term of the heuristic score,
capped at a fixed ceiling. -/
def heuristic_resolution_term (width height : ℕ) : ℚ :=
  min 100 ((width : ℚ) * (height : ℚ) / 10000)

/-- Modelled from the spec's words: the capped bytes-per-pixel compression term
of the heuristic score. -/
def heuristic_compression_term (fileSize width height : ℕ) : ℚ :=
  min 100 (100 * ((fileSize : ℚ) / ((width : ℚ) * (height : ℚ))))

/-- Modelled from the spec's words: the aspect-ratio term of the heuristic
score, rewarding ratios close to square. -/
def heuristic_aspect_term (width height : ℕ) : ℚ :=
  100 * min ((width : ℚ) / (height : ℚ)) ((height : ℚ) / (width : ℚ))

/-- A curation environment with no IQA metric loaded (fallback mode) and no
readable image data, used to instantiate universally quantified results. -/
def fallbackEnv : PipelineCore.ScoreEnv :=
  { iqaLoaded := false
    iqa_model_name := "brisque"
    iqaScore := fun _ => none
    iqaLowerBetter := none
    imageProps := fun _ => none }

/-- A content environment in which no backend is configured, so every backend
fails, used to instantiate universally quantified results. -/
def noBackendEnv : PipelineCore.ContentEnv :=
  { llava_13b_model := none
    gemini_model := false
    llavaRaw := fun _ => none
    geminiRaw := fun _ => none
    enable_gallery_critique := false }

/-- A pipeline environment built from the two environments above, with every
metadata write succeeding. -/
def emptyPipelineEnv : PipelineCore.PipelineEnv :=
  { score := fallbackEnv
    content := noBackendEnv
    write_ok := fun _ => true }

/-- A pipeline configuration with the dictionary defaults of `process_directory`
(`quality_threshold=0.10`, `use_exif=False`, `model_type='unknown'`). -/
def defaultCfg : PipelineCore.PipelineCfg :=
  { quality_threshold := 1 / 10
    use_exif := false
    model_type := "unknown" }

/-- An analysis dictionary whose score 10 derives a 5-star rating and whose tag
list does not mention GALLERY. -/
def d_score10 : AnalysisData :=
  { category := some "Person/People"
    subcategory := some "Portrait"
    tags := some ["Portrait", "Golden-Hour"]
    score := .num 10
    critique := none }

/-- An analysis dictionary whose score 2 derives a 2-star rating. -/
def d_score2 : AnalysisData :=
  { category := some "Thing"
    subcategory := some "Pet"
    tags := some ["Pet"]
    score := .num 2
    critique := none }

/-- An analysis dictionary with score 7 on the pipeline's 1-10 prompt scale. -/
def d_score7 : AnalysisData :=
  { category := some "Place"
    subcategory := some "Landscape"
    tags := some ["Urban"]
    score := .num 7
    critique := none }

/-- An analysis dictionary carrying critique text and score 8, above the default
critique threshold of 5. -/
def d_score8 : AnalysisData :=
  { category := some "Thing"
    subcategory := some "Architecture"
    tags := some ["Urban", "Golden-Hour"]
    score := .num 8
    critique := some "Harsh shadows flatten the composition." }

/-- The UnifiedConfig defaults: gallery critique disabled, threshold 5. -/
def ua_cfg_off : UnifiedAnalyzer.UConfig :=
  { enable_gallery_critique := false
    critique_threshold := some 5 }

/-- A content environment whose only configured backend is Gemini, whose parsed
response is `d_score8`, with gallery critique disabled for the run. -/
def gemini_env_off : PipelineCore.ContentEnv :=
  { llava_13b_model := none
    gemini_model := true
    llavaRaw := fun _ => none
    geminiRaw := fun _ => some d_score8
    enable_gallery_critique := false }

open PipelineCore

theorem pyInt_of_nonneg {q : ℚ} (h : 0 ≤ q) : pyInt q = ⌊q⌋ := if_pos h

theorem length_insertSorted (le : α → α → Bool) (a : α) (l : List α) :
    (insertSorted le a l).length = l.length + 1 := by
  induction l with
  | nil => rfl
  | cons b bs ih =>
    simp only [insertSorted]
    split
    · simp
    · simp [ih]

theorem mem_insertSorted {le : α → α → Bool} {a x : α} {l : List α} :
    x ∈ insertSorted le a l ↔ x = a ∨ x ∈ l := by
  induction l with
  | nil => simp [insertSorted]
  | cons b bs ih =>
    simp only [insertSorted]
    split
    · simp [List.mem_cons]
    · simp only [List.mem_cons, ih]
      tauto

theorem length_sortBy (le : α → α → Bool) (l : List α) :
    (sortBy le l).length = l.length := by
  induction l with
  | nil => rfl
  | cons a as ih => simp [sortBy, length_insertSorted, ih]

theorem mem_sortBy {le : α → α → Bool} {x : α} {l : List α} :
    x ∈ sortBy le l ↔ x ∈ l := by
  induction l with
  | nil => simp [sortBy]
  | cons a as ih => simp [sortBy, mem_insertSorted, ih]

theorem length_sortScores (reverse : Bool) (scores : List (String × ℚ)) :
    (sortScores reverse scores).length = scores.length := by
  unfold sortScores
  split <;> exact length_sortBy _ _

theorem mem_sortScores {reverse : Bool} {x : String × ℚ} {scores : List (String × ℚ)} :
    x ∈ sortScores reverse scores ↔ x ∈ scores := by
  unfold sortScores
  split <;> exact mem_sortBy

theorem score_of_mem_scored {env : ScoreEnv} {files : List String} {x : String × ℚ}
    (h : x ∈ scored_images env files) : score_image env x.1 = some x.2 := by
  unfold scored_images at h
  obtain ⟨p, _, hp⟩ := List.mem_filterMap.mp h
  obtain ⟨s, hs, hx⟩ := Option.map_eq_some'.mp hp
  cases hx
  exact hs

theorem curated_subset_scored {env : ScoreEnv} {files : List String} {f : ℚ}
    {x : String × ℚ} (h : x ∈ curated env files f) : x ∈ scored_images env files := by
  unfold curated curate_images_by_quality at h
  by_cases hfe : files.isEmpty
  · simp [hfe] at h
  · by_cases hse : (scored_images env files).isEmpty
    · simp [hfe, hse] at h
    · simp only [hfe, hse, if_neg, Bool.false_eq_true, if_false] at h
      exact mem_sortScores.mp (List.take_subset _ _ h)

theorem rfindDotIdx_eq_none {l : List Char} (h : '.' ∉ l) : rfindDotIdx l = none := by
  induction l with
  | nil => rfl
  | cons c cs ih =>
    simp only [List.mem_cons, not_or] at h
    simp only [rfindDotIdx, ih h.2]
    exact if_neg (fun hc => h.1 hc.symm)

theorem rfindDotIdx_append_dot {ys : List Char} (hy : '.' ∉ ys) (xs : List Char) :
    rfindDotIdx (xs ++ '.' :: ys) = some xs.length := by
  induction xs with
  | nil => simp [rfindDotIdx, rfindDotIdx_eq_none hy]
  | cons x xs ih => simp [rfindDotIdx, ih]

theorem data_ne_nil {s : String} (h : s ≠ "") : s.data ≠ [] := by
  intro hd
  exact h (String.ext hd)

theorem with_suffix_replaces (stem ext : String) (hs : stem ≠ "") (he : ext ≠ "")
    (hd : '.' ∉ ext.data) :
    with_suffix (stem ++ "." ++ ext) ".xmp" = stem ++ ".xmp" := by
  have hdata : (stem ++ "." ++ ext).data = stem.data ++ '.' :: ext.data := by
    simp [String.data_append]
  have hfind : rfindDotIdx (stem ++ "." ++ ext).data = some stem.data.length := by
    rw [hdata]; exact rfindDotIdx_append_dot hd stem.data
  have hslen : 0 < stem.data.length := List.length_pos.mpr (data_ne_nil hs)
  have helen : 0 < ext.data.length := List.length_pos.mpr (data_ne_nil he)
  have hlen : (stem ++ "." ++ ext).data.length = stem.data.length + 1 + ext.data.length := by
    rw [hdata]; simp; omega
  have hk : pathSuffixLen (stem ++ "." ++ ext).data = ext.data.length + 1 := by
    unfold pathSuffixLen
    rw [hfind]
    simp only [hlen]
    rw [if_pos ⟨hslen, by omega⟩]
    omega
  unfold with_suffix
  rw [if_neg (by omega : ¬pathSuffixLen (stem ++ "." ++ ext).data = 0)]
  apply String.ext
  show ((stem ++ "." ++ ext).data.take _ ++ _) = (stem ++ ".xmp").data
  rw [hk, hlen, hdata]
  have htake : stem.data.length + 1 + ext.data.length - (ext.data.length + 1) = stem.data.length := by
    omega
  rw [htake]
  rw [show (stem.data ++ '.' :: ext.data).take stem.data.length = stem.data from
    by rw [List.take_left' rfl]]
  simp [String.data_append]

theorem ua_xmp_path_appends (p : String) :
    UnifiedAnalyzer.xmp_sidecar_path p = p ++ ".xmp" := by
  unfold UnifiedAnalyzer.xmp_sidecar_path with_suffix path_suffix
  by_cases hk : pathSuffixLen p.data = 0
  · rw [if_pos hk]
    apply String.ext
    simp [String.data_append, hk]
  · rw [if_neg hk]
    apply String.ext
    simp only [String.data_append]
    show p.data.take _ ++ (p.data.drop _ ++ ".xmp".data) = p.data ++ ".xmp".data
    rw [← List.append_assoc, List.take_append_drop]

/-- C7 counterexample: the claim says the sidecar for `photo.jpg` is written at
`photo.xmp`, never `photo.jpg.xmp`; the experimental analyzer's
`MetadataWriter.write_xmp_sidecar` places it at `photo.jpg.xmp`. -/
theorem C7_xmp_append_counterexample :
    UnifiedAnalyzer.xmp_sidecar_path "photo.jpg" = "photo.jpg.xmp" ∧
      "photo.jpg.xmp" ≠ "photo.xmp" := by
  constructor
  · decide
  · decide

/-- C7 (amended): the pipeline-core persistence layer writes the sidecar at the
image path with its final extension replaced by `.xmp` (so `photo.jpg` yields
`photo.xmp`), while the experimental MetadataWriter appends `.xmp` to the whole
name, yielding `photo.jpg.xmp`. -/
theorem C7_xmp_path_amended :
    (∀ stem ext : String, stem ≠ "" → ext ≠ "" → '.' ∉ ext.data →
        pipeline_xmp_path (stem ++ "." ++ ext) = stem ++ ".xmp")
    ∧ ∀ p : String, UnifiedAnalyzer.xmp_sidecar_path p = p ++ ".xmp" := by
  constructor
  · intro stem ext hs he hd
    exact with_suffix_replaces stem ext hs he hd
  · exact ua_xmp_path_appends

/-- C7 witness: the amended statement applied to the concrete name `photo.jpg`. -/
theorem C7_xmp_path_amended_witness :
    pipeline_xmp_path ("photo" ++ "." ++ "jpg") = "photo" ++ ".xmp" ∧
      UnifiedAnalyzer.xmp_sidecar_path "photo.jpg" = "photo.jpg" ++ ".xmp" :=
  ⟨C7_xmp_path_amended.1 "photo" "jpg" (by decide) (by decide) (by decide),
   C7_xmp_path_amended.2 "photo.jpg"⟩

/-- C8: the heuristic fallback score is the weighted sum
0.4 * capped resolution term + 0.4 * capped bytes-per-pixel term
+ 0.2 * near-square aspect term; it is a function of exactly the image
properties (file size, dimensions); and in fallback mode curation sorts
descending, so a higher heuristic score is always better. -/
theorem C8_fallback_heuristic (fileSize width height : ℕ)
    (hw : 0 < width) (hh : 0 < height) :
    (fallback_quality_score fileSize width height
        = (2 / 5) * heuristic_resolution_term width height
          + (2 / 5) * heuristic_compression_term fileSize width height
          + (1 / 5) * heuristic_aspect_term width height)
    ∧ (∀ (env env' : ScoreEnv) (p p' : String),
        env.imageProps p = env'.imageProps p' →
          fallback_quality env p = fallback_quality env' p')
    ∧ ∀ env : ScoreEnv, env.iqaLoaded = false → reverse_sort env = true := by
  refine ⟨?_, ?_, ?_⟩
  · have hwq : (0 : ℚ) < width := by exact_mod_cast hw
    have hhq : (0 : ℚ) < height := by exact_mod_cast hh
    have hp : (width : ℚ) * (height : ℚ) > 0 := mul_pos hwq hhq
    dsimp only [fallback_quality_score, heuristic_resolution_term,
      heuristic_compression_term, heuristic_aspect_term]
    rw [if_pos hp, if_pos hhq, one_div_div,
      mul_comm ((fileSize : ℚ) / ((width : ℚ) * (height : ℚ))) 100]
    ring
  · intro env env' p p' h
    unfold fallback_quality
    rw [h]
  · intro env h
    simp [reverse_sort, h]

/-- C8 witness: the formula instantiated at a 1-megabyte, 1000 x 1000 image. -/
theorem C8_fallback_heuristic_witness :
    fallback_quality_score 1000000 1000 1000
      = (2 / 5) * heuristic_resolution_term 1000 1000
        + (2 / 5) * heuristic_compression_term 1000000 1000 1000
        + (1 / 5) * heuristic_aspect_term 1000 1000 :=
  (C8_fallback_heuristic 1000000 1000 1000 (by norm_num) (by norm_num)).1

theorem ceil_seven_half : (⌈(7 : ℚ) / 2⌉ : ℤ) = 4 := by
  rw [Int.ceil_eq_iff] <;> norm_num

theorem pyInt_seven : pyInt (7 : ℚ) = 7 := by
  rw [pyInt_of_nonneg (by norm_num)]
  norm_num

/-- C3 counterexample: the pipeline core prompts on a 1-10 scale, and for a
score of 7 its persisters derive the star rating 5 (plain clamp of the score),
while the claim's formula clamp(ceil(7/2), 1, 5) demands 4. -/
theorem C3_star_derivation_counterexample :
    (write_xmp_sidecar "photo.jpg" d_score7).rating = 5
    ∧ spec_star_1to10 7 = 4 ∧ (5 : ℤ) ≠ 4 := by
  refine ⟨?_, ?_, by decide⟩
  · simp [write_xmp_sidecar, derive_rating, d_score7, pyInt_seven]
  · simp [spec_star_1to10, ceil_seven_half]

/-- C3 (amended): the web app and the experimental analyzer derive
clamp(ceil(score/2), 1, 5) for scores in [1, 10], but they choose that
conversion by inspecting the score's magnitude rather than a configured
domain (the web app halves a 1-5-domain score of 4 down to 2), and the
pipeline core's persisters ignore the halving entirely, deriving
clamp(int(score), 1, 5). -/
theorem C3_star_derivation_amended :
    (∀ q : ℚ, 1 ≤ q → q ≤ 10 → WebApp.star_rating q = spec_star_1to10 q)
    ∧ (∀ q : ℚ, 1 ≤ q → q ≤ 10 → UnifiedAnalyzer.star_rating q = spec_star_1to10 q)
    ∧ (∀ (p : String) (d : AnalysisData) (q : ℚ), d.score = .num q →
        (write_xmp_sidecar p d).rating = max 1 (min 5 (pyInt q))
        ∧ (write_embedded_metadata p d).rating = max 1 (min 5 (pyInt q)))
    ∧ WebApp.star_rating 4 = 2 ∧ spec_star_1to5 4 = 4 := by
  refine ⟨?_, ?_, ?_, ?_, by decide⟩
  · intro q h1 h10
    unfold WebApp.star_rating spec_star_1to10
    rw [if_pos h10]
  · intro q h1 h10
    unfold UnifiedAnalyzer.star_rating spec_star_1to10
    rw [if_pos h1]
    have hc1 : 1 ≤ ⌈q / 2⌉ := by
      have : (0 : ℚ) < q / 2 := by linarith
      have := Int.ceil_pos.mpr this
      omega
    have hc5 : ⌈q / 2⌉ ≤ 5 := by
      rw [Int.ceil_le]
      push_cast
      linarith
    omega
  · intro p d q hq
    constructor <;> simp [write_xmp_sidecar, write_embedded_metadata, derive_rating, hq]
  · unfold WebApp.star_rating
    rw [if_pos (by norm_num : (4 : ℚ) ≤ 10)]
    rw [show (⌈(4 : ℚ) / 2⌉ : ℤ) = 2 by rw [Int.ceil_eq_iff] <;> norm_num]
    decide

/-- C3 witness: at the spec's scenario score 9 both magnitude-branch
implementations agree with the 1-10 formula, and the pipeline-core rating of
`d_score7` is the plain clamp. -/
theorem C3_star_derivation_amended_witness :
    WebApp.star_rating 9 = spec_star_1to10 9
    ∧ UnifiedAnalyzer.star_rating 9 = spec_star_1to10 9
    ∧ (write_xmp_sidecar "photo.jpg" d_score7).rating = max 1 (min 5 (pyInt 7)) :=
  ⟨C3_star_derivation_amended.1 9 (by norm_num) (by norm_num),
   C3_star_derivation_amended.2.1 9 (by norm_num) (by norm_num),
   (C3_star_derivation_amended.2.2.1 "photo.jpg" d_score7 7 rfl).1⟩

theorem pyInt_two : pyInt (2 : ℚ) = 2 := by
  rw [pyInt_of_nonneg (by norm_num)]
  norm_num

/-- C2 counterexample: the pipeline core's embedded writer never reads the
existing rating; against a target carrying embedded rating 4, persisting a
classification whose computed star is 2 leaves the target with rating 2, not
the preserved 4 the claim requires. -/
theorem C2_embedded_overwrite_counterexample :
    embedded_rating_after (some 4) "photo.jpg" d_score2 = 2 ∧ (2 : ℤ) ≠ 4 := by
  refine ⟨?_, by decide⟩
  simp [embedded_rating_after, write_embedded_metadata, derive_rating, d_score2, pyInt_two]

/-- C2 (amended): the web app's write_exif_data preserves an existing embedded
rating of 4 or 5 when the metadata handling mode is 'append' (the default), and
the experimental MetadataWriter preserves it unconditionally; the pipeline
core's write_embedded_metadata always writes the newly derived rating,
whatever the target carried. -/
theorem C2_rating_monotonicity_amended :
    (∀ (r : ℤ) (score : ℚ), r = 4 ∨ r = 5 →
        WebApp.final_rating (some r) "append" score = r)
    ∧ (∀ (r : ℤ) (score : ℚ), r = 4 ∨ r = 5 →
        UnifiedAnalyzer.final_rating (some r) score = r)
    ∧ ∀ (existing : Option ℤ) (p : String) (d : AnalysisData),
        embedded_rating_after existing p d = derive_rating d.score := by
  refine ⟨?_, ?_, ?_⟩
  · intro r score hr
    dsimp only [WebApp.final_rating]
    rw [if_pos ⟨rfl, hr⟩]
  · intro r score hr
    dsimp only [UnifiedAnalyzer.final_rating]
    rw [if_pos hr]
  · intro existing p d
    rfl

/-- C2 witness: the spec's scenario, existing rating 4 with computed star 2,
is preserved by the web app (append mode) and by the experimental writer. -/
theorem C2_rating_monotonicity_amended_witness :
    WebApp.final_rating (some 4) "append" 2 = 4
    ∧ UnifiedAnalyzer.final_rating (some 4) 2 = 4 :=
  ⟨C2_rating_monotonicity_amended.1 4 2 (Or.inl rfl),
   C2_rating_monotonicity_amended.2.1 4 2 (Or.inl rfl)⟩

/-- C5: when both configured backends fail to produce a result, analyze_image
returns the fixed placeholder classification — category "Thing", the generic
tags, the mid-range score 6 — and that placeholder is structurally valid. -/
theorem C5_degraded_mode (env : ContentEnv) (p : String)
    (hl : analyze_image_with_llava_13b env p = none)
    (hg : analyze_image_with_gemini env p = none) :
    analyze_image env p = placeholder_classification
    ∧ placeholder_classification.category = some "Thing"
    ∧ placeholder_classification.tags = some ["AI", "Analyzed"]
    ∧ placeholder_classification.score = ScoreField.num 6
    ∧ (1 : ℚ) ≤ 6 ∧ (6 : ℚ) ≤ 10
    ∧ structurally_valid placeholder_classification = true := by
  refine ⟨?_, rfl, rfl, rfl, by norm_num, by norm_num, by decide⟩
  unfold analyze_image
  rw [hl, hg]

/-- C5 witness: with no backend configured, analysis of a concrete path yields
the placeholder. -/
theorem C5_degraded_mode_witness :
    analyze_image noBackendEnv "photo.jpg" = placeholder_classification :=
  (C5_degraded_mode noBackendEnv "photo.jpg" rfl rfl).1

/-- C9 (code bug): with gallery critique disabled, both unified-analyzer call
sites pass has_critique = enable_gallery_critique, so a backend critique on a
score of 8 (above the threshold 5) is retained, although the strip logic,
had it been reached with has_critique = true, would have removed it; the
pipeline core's Gemini path also returns the critique untouched. -/
theorem C9_critique_retained_above_threshold :
    UnifiedAnalyzer.analyze_parse ua_cfg_off (some d_score8) = some d_score8
    ∧ UnifiedAnalyzer.parse_response ua_cfg_off true (some d_score8)
        = some { d_score8 with critique := none }
    ∧ analyze_image gemini_env_off "photo.jpg" = d_score8
    ∧ (8 : ℚ) > 5
    ∧ d_score8.critique.isSome = true := by
  refine ⟨rfl, ?_, rfl, by norm_num, rfl⟩
  dsimp only [UnifiedAnalyzer.parse_response, UnifiedAnalyzer.score_val, ua_cfg_off, d_score8]
  norm_num
  intro h
  exact ScoreField.noConfusion h

/-- C10: a path ending in .png (case-insensitively) is rejected by score_image
before any scoring; .png is nonetheless on the curation allow-list; and no
element of any curated result has a .png path. -/
theorem C10_png_never_curated :
    (∀ (env : ScoreEnv) (path : String),
        isPngPath path = true → score_image env path = none)
    ∧ ".png" ∈ supported_extensions
    ∧ ∀ (env : ScoreEnv) (files : List String) (f : ℚ) (x : String × ℚ),
        x ∈ curated env files f → isPngPath x.1 = false := by
  have key : ∀ (env : ScoreEnv) (path : String),
      isPngPath path = true → score_image env path = none := by
    intro env path h
    simp [score_image, h]
  refine ⟨key, by decide, ?_⟩
  intro env files f x hx
  have hs := score_of_mem_scored (curated_subset_scored hx)
  cases hpng : isPngPath x.1 with
  | false => rfl
  | true =>
    rw [key env x.1 hpng] at hs
    exact Option.noConfusion hs

theorem png_jpg_guard : isPngPath "a.jpg" = false := by decide

theorem scored_single_jpg : scored_images fallbackEnv ["a.jpg"] = [("a.jpg", 50)] := by
  simp [scored_images, score_image, png_jpg_guard, fallbackEnv, fallback_quality]

theorem curated_single_jpg : curated fallbackEnv ["a.jpg"] 1 = [("a.jpg", 50)] := by
  have h1 : num_to_select 1 1 = 1 := by
    have hp : pyInt (1 : ℚ) = 1 := by
      rw [pyInt_of_nonneg (by norm_num)]
      norm_num
    simp [num_to_select, hp]
  have hrev : sortScores (reverse_sort fallbackEnv) [("a.jpg", (50 : ℚ))]
      = [("a.jpg", 50)] := by
    unfold sortScores
    split <;> rfl
  simp only [curated, curate_images_by_quality, scored_single_jpg]
  simp [h1, hrev]

/-- C10 witness: a concrete uppercase PNG path is scored as None, and the
concrete curated element of a jpg-only directory is not a PNG. -/
theorem C10_png_never_curated_witness :
    score_image fallbackEnv "photo.PNG" = none
    ∧ isPngPath ("a.jpg", (50 : ℚ)).1 = false :=
  ⟨C10_png_never_curated.1 fallbackEnv "photo.PNG" (by decide),
   C10_png_never_curated.2.2 fallbackEnv ["a.jpg"] 1 ("a.jpg", 50)
     (by rw [curated_single_jpg]; exact List.mem_singleton.mpr rfl)⟩

theorem count_gallery_of_nodup (d : AnalysisData) (hnd : (d.tags.getD []).Nodup)
    (h5 : derive_rating d.score = 5) :
    (gallery_tags d).count "GALLERY" = 1 := by
  dsimp only [gallery_tags]
  by_cases hmem : "GALLERY" ∈ d.tags.getD []
  · rw [if_neg (fun hc => hc.2 hmem)]
    have hle := List.nodup_iff_count_le_one.mp hnd "GALLERY"
    have hpos : 0 < (d.tags.getD []).count "GALLERY" := List.count_pos_iff.mpr hmem
    omega
  · rw [if_pos ⟨h5, hmem⟩, List.count_append, List.count_eq_zero.mpr hmem]
    simp

/-- C1: for a classification whose tag list has no duplicates (the data model
forbids them), whenever the derived final rating is 5, every tag field written
by either persister contains GALLERY exactly once — whether or not the backend
supplied the tag itself. -/
theorem C1_gallery_exactly_once (p : String) (d : AnalysisData)
    (hnd : (d.tags.getD []).Nodup) (h5 : derive_rating d.score = 5) :
    (write_xmp_sidecar p d).subject.count "GALLERY" = 1
    ∧ (write_xmp_sidecar p d).keywords.count "GALLERY" = 1
    ∧ (write_embedded_metadata p d).keywords.count "GALLERY" = 1
    ∧ (write_embedded_metadata p d).subject.count "GALLERY" = 1 := by
  have hc := count_gallery_of_nodup d hnd h5
  exact ⟨hc, hc, hc, hc⟩

theorem derive_rating_ten : derive_rating (ScoreField.num 10) = 5 := by
  have h10 : pyInt (10 : ℚ) = 10 := by
    rw [pyInt_of_nonneg (by norm_num)]
    norm_num
  simp [derive_rating, h10]

/-- C1 witness: a concrete score-10 classification without a GALLERY tag is
written with GALLERY exactly once. -/
theorem C1_gallery_exactly_once_witness :
    (write_xmp_sidecar "photo.jpg" d_score10).subject.count "GALLERY" = 1 :=
  (C1_gallery_exactly_once "photo.jpg" d_score10 (by decide) derive_rating_ten).1

/-- C4: with at least one successfully scored image and a top fraction in
(0, 1], curation returns exactly the first max(1, floor(N_scored * f)) entries
of the quality-sorted list — hence a nonempty result — and returns the empty
list whenever no image scores successfully. -/
theorem C4_curation_top_count (env : ScoreEnv) (files : List String) (f : ℚ)
    (hf0 : 0 < f) (hf1 : f ≤ 1) (hne : scored_images env files ≠ []) :
    (curated env files f
        = (sortScores (reverse_sort env) (scored_images env files)).take
            (max 1 ⌊((scored_images env files).length : ℚ) * f⌋.toNat))
    ∧ (curated env files f).length
        = max 1 ⌊((scored_images env files).length : ℚ) * f⌋.toNat
    ∧ curated env files f ≠ []
    ∧ ∀ files' : List String, scored_images env files' = [] →
        curated env files' f = [] := by
  have hfe : files.isEmpty = false := by
    cases files with
    | nil => exact absurd rfl hne
    | cons a as => rfl
  have hse : (scored_images env files).isEmpty = false :=
    List.isEmpty_eq_false.mpr hne
  have hnum : num_to_select (scored_images env files).length f
      = max 1 ⌊((scored_images env files).length : ℚ) * f⌋.toNat := by
    unfold num_to_select
    rw [pyInt_of_nonneg (mul_nonneg (Nat.cast_nonneg _) hf0.le)]
  have hkey : curated env files f
      = (sortScores (reverse_sort env) (scored_images env files)).take
          (max 1 ⌊((scored_images env files).length : ℚ) * f⌋.toNat) := by
    dsimp only [curated, curate_images_by_quality]
    rw [hfe, hse]
    simp only [Bool.false_eq_true, if_false]
    rw [hnum]
  have hkle : max 1 ⌊((scored_images env files).length : ℚ) * f⌋.toNat
      ≤ (scored_images env files).length := by
    have hmul : ((scored_images env files).length : ℚ) * f
        ≤ ((scored_images env files).length : ℚ) :=
      mul_le_of_le_one_right (Nat.cast_nonneg _) hf1
    have h2 : ⌊((scored_images env files).length : ℚ) * f⌋
        ≤ ((scored_images env files).length : ℤ) := by
      have := Int.floor_mono hmul
      rwa [Int.floor_natCast] at this
    have hpos : 0 < (scored_images env files).length := List.length_pos.mpr hne
    omega
  have hlen : (curated env files f).length
      = max 1 ⌊((scored_images env files).length : ℚ) * f⌋.toNat := by
    rw [hkey, List.length_take, length_sortScores]
    exact min_eq_left hkle
  refine ⟨hkey, hlen, ?_, ?_⟩
  · apply List.length_pos.mp
    rw [hlen]
    omega
  · intro files' h
    dsimp only [curated, curate_images_by_quality]
    by_cases hfe' : files'.isEmpty = true
    · simp [hfe']
    · have hse' : (scored_images env files').isEmpty = true := by
        rw [h]; rfl
      simp [hfe', hse']

/-- C4 witness: a directory with one scorable jpg curates to a nonempty list. -/
theorem C4_curation_top_count_witness : curated fallbackEnv ["a.jpg"] 1 ≠ [] :=
  (C4_curation_top_count fallbackEnv ["a.jpg"] 1 (by norm_num) le_rfl
    (by simp [scored_single_jpg])).2.2.1

theorem curate_msgs_not_stage (env : ScoreEnv) (files : List String) (f : ℚ) :
    ∀ m ∈ (curate_images_by_quality env files f).2,
      m.isAnalysisMsg = false ∧ m.isPersistenceMsg = false := by
  intro m hm
  dsimp only [curate_images_by_quality] at hm
  by_cases hfe : files.isEmpty = true
  · rw [if_pos hfe] at hm
    simp only [List.mem_cons, List.not_mem_nil, or_false] at hm
    rcases hm with rfl | rfl <;> exact ⟨rfl, rfl⟩
  · rw [if_neg hfe] at hm
    by_cases hse : (scored_images env files).isEmpty = true
    · rw [if_pos hse] at hm
      simp only [List.mem_append, List.mem_cons, List.mem_map, List.not_mem_nil,
        or_false] at hm
      rcases hm with ((rfl | rfl) | ⟨e, _, rfl⟩) | rfl <;> exact ⟨rfl, rfl⟩
    · rw [if_neg hse] at hm
      simp only [List.mem_append, List.mem_cons, List.mem_map, List.not_mem_nil,
        or_false] at hm
      rcases hm with ((rfl | rfl) | ⟨e, _, rfl⟩) | (rfl | rfl) <;> exact ⟨rfl, rfl⟩

/-- C6: when curation yields zero images, process_directory returns the
structured failure record with error "No images passed quality assessment" and
its status trace contains no analysis-stage and no persistence-stage message. -/
theorem C6_zero_curated (env : PipelineEnv) (cfg : PipelineCfg) (dir : String)
    (files : List String)
    (h : (curate_images_by_quality env.score files cfg.quality_threshold).1 = []) :
    (process_directory env cfg dir files).1
        = PipelineResult.failure "No images passed quality assessment"
    ∧ ∀ m ∈ (process_directory env cfg dir files).2,
        m.isAnalysisMsg = false ∧ m.isPersistenceMsg = false := by
  have hie : (curate_images_by_quality env.score files cfg.quality_threshold).1.isEmpty
      = true := by
    rw [h]; rfl
  constructor
  · dsimp only [process_directory]
    rw [if_pos hie]
  · intro m hm
    dsimp only [process_directory] at hm
    rw [if_pos hie] at hm
    simp only [List.mem_append, List.mem_cons, List.not_mem_nil, or_false] at hm
    rcases hm with ((rfl | rfl) | hm) | rfl
    · exact ⟨rfl, rfl⟩
    · exact ⟨rfl, rfl⟩
    · exact curate_msgs_not_stage env.score files cfg.quality_threshold m hm
    · exact ⟨rfl, rfl⟩

/-- C6 witness: processing an empty directory returns the structured failure. -/
theorem C6_zero_curated_witness :
    (process_directory emptyPipelineEnv defaultCfg "dir" []).1
      = PipelineResult.failure "No images passed quality assessment" :=
  (C6_zero_curated emptyPipelineEnv defaultCfg "dir" [] rfl).1
